import Mathlib

/-!
Verification of the HudsonBayOutposts client-side machinery against its
specification: the retry/backoff executor, error classification, session
token management, the TTL response cache and the synchronization import
protocol, shallowly embedded from the Python sources
(src/api_client/client.py, src/utils/caching.py,
raspberry_pi/api/auth_middleware.py).
-/

set_option autoImplicit false

namespace HudsonBay

/-! ## Error model (src/api_client/client.py)

The exceptions the client distinguishes: network-level failures
(connection error, timeout), HTTP errors carrying an optional response
status code (`exception.response` may be `None` in the source), and any
other exception. -/

inductive ReqError where
  | connectionError
  | timeout
  | httpError (status : Option Nat)
  | otherError
  deriving DecidableEq, Repr

/-- Embeds OutpostAPIClient._is_retryable_error: connection errors and
timeouts are retryable; HTTP errors are retryable exactly when the
response is present and its status is 500, 502, 503 or 504; everything
else is not retryable. -/
def is_retryable_error : ReqError → Bool
  | .connectionError => true
  | .timeout => true
  | .httpError (some status) =>
      status == 500 || status == 502 || status == 503 || status == 504
  | .httpError none => false
  | .otherError => false

/-- Classification written from the spec's words (section 4.1): network
failures Retryable, remote status 500/502/503/504 Retryable, all other
errors Fatal. Used to compare the source classifier against the spec. -/
def classifySpecRetryable : ReqError → Bool
  | .connectionError => true
  | .timeout => true
  | .httpError (some status) =>
      status == 500 || status == 502 || status == 503 || status == 504
  | .httpError _ => false
  | .otherError => false

/-- Embeds OutpostAPIClient._calculate_backoff_delay with base_delay 1.0:
delay = base * factor ^ attempt.  The factor is modelled as a rational to
keep the arithmetic exact, as the spec demands reproducibility. -/
def calculate_backoff_delay (retry_backoff_factor : ℚ) (attempt : Nat) : ℚ :=
  1 * retry_backoff_factor ^ attempt

/-! ## Resilient request executor (OutpostAPIClient._make_request_with_retry)

The transport is modelled as a function from the attempt index to the
outcome of that attempt (success value or raised exception).  The loop
`for attempt in range(max_attempts)` with its early `return`/`raise` is
embedded as a recursion on the attempt index; alongside the result we
return the number of times the transport was invoked, the observable the
spec's attempt-count properties speak about. -/

def retryAux {α : Type} (transport : Nat → Except ReqError α)
    (maxAttempts : Nat) (attempt : Nat) : Except ReqError α × Nat :=
  match transport attempt with
  | .ok r => (.ok r, attempt + 1)
  | .error e =>
      if h : attempt + 1 < maxAttempts ∧ is_retryable_error e = true then
        retryAux transport maxAttempts (attempt + 1)
      else
        (.error e, attempt + 1)
termination_by maxAttempts - attempt
decreasing_by omega

/-- Embeds OutpostAPIClient._make_request_with_retry: with retries enabled
max_attempts = max_retries + 1, otherwise a single attempt; each failed
attempt is retried only while attempts remain and the error is retryable,
and the last error propagates.  Returns the propagated outcome together
with the number of transport invocations. -/
def make_request_with_retry {α : Type} (transport : Nat → Except ReqError α)
    (max_retries : Nat) (retry_enabled : Bool) : Except ReqError α × Nat :=
  retryAux transport (if retry_enabled then max_retries + 1 else 1) 0

/-! ## Session token manager (OutpostAPIClient authentication state)

The mutable attributes `_token`, `_token_expires_at` and the session's
`Authorization` header are embedded as an explicit state record; time is
a natural number of seconds.  `_set_auth_header` writes or removes the
header from the current `_token`; `is_authenticated` tests only token
presence, exactly as the `@property` does. -/

structure ClientState where
  token : Option String
  token_expires_at : Option Nat
  authHeader : Option String
  deriving DecidableEq, Repr

/-- Embeds OutpostAPIClient._set_auth_header: when a token is held the
session Authorization header becomes the bearer credential built from it;
otherwise the header is removed. -/
def set_auth_header (s : ClientState) : ClientState :=
  match s.token with
  | some t => { s with authHeader := some ("Bearer " ++ t) }
  | none => { s with authHeader := none }

/-- Embeds the OutpostAPIClient.is_authenticated property: the check is
`self._token is not None` and nothing else. -/
def is_authenticated (s : ClientState) : Bool :=
  s.token.isSome

/-- The token's expiry has passed at time `now` (strictly later than the
recorded `_token_expires_at`). -/
def token_expired (s : ClientState) (now : Nat) : Bool :=
  match s.token_expires_at with
  | some e => decide (e < now)
  | none => false

/-- The outcome of the HTTP POST to /auth/login as the client observes
it: a response with a status code and JSON body fields `access_token`
and `expires_in` (either may be absent), or a raised exception. -/
inductive LoginOutcome where
  | response (status : Nat) (access_token : Option String) (expires_in : Option Nat)
  | exception
  deriving DecidableEq, Repr

/-- Embeds OutpostAPIClient.login: the held token is stashed and the
auth header cleared for the login call; on a 200 response the returned
token is stored with expiry now + expires_in (default 3600) and the call
returns True; on any other status or an exception the stashed token is
restored (the expiry attribute was never touched) and the call returns
False. -/
def login (now : Nat) (outcome : LoginOutcome) (s : ClientState) :
    Bool × ClientState :=
  let old_token := s.token
  let s1 := set_auth_header { s with token := none }
  match outcome with
  | .response status access_token expires_in =>
      if status == 200 then
        let expiresIn := expires_in.getD 3600
        let s2 := { s1 with token := access_token,
                            token_expires_at := some (now + expiresIn) }
        (true, set_auth_header s2)
      else
        let s2 := { s1 with token := old_token }
        (false, if old_token.isSome then set_auth_header s2 else s2)
  | .exception =>
      let s2 := { s1 with token := old_token }
      (false, if old_token.isSome then set_auth_header s2 else s2)

/-- The login HTTP call failed in some way: an exception was raised or
the response status was not 200. -/
def loginCallFailed : LoginOutcome → Bool
  | .response status _ _ => status != 200
  | .exception => true

/-- A client state whose session header agrees with the held token, the
shape every state reachable through the client's own methods has. -/
def headerConsistent (s : ClientState) : Prop :=
  s.authHeader = s.token.map (fun t => "Bearer " ++ t)

instance (s : ClientState) : Decidable (headerConsistent s) := by
  unfold headerConsistent; infer_instance

/-! ## The public call surface (OutpostAPIClient._make_request)

`_make_request` delegates to the retry layer and converts every raised
exception — timeout, connection error, HTTP error, anything else — into
`None` after logging a status-specific hint.  The hint selection of its
`except` branch is embedded separately so the logged category can be
spoken about. -/

/-- Embeds the result conversion of OutpostAPIClient._make_request: a
successful response is returned to the caller, every error is caught and
turned into None. -/
def make_request {α : Type} (transport : Nat → Except ReqError α)
    (max_retries : Nat) (retry_enabled : Bool) : Option α :=
  match (make_request_with_retry transport max_retries retry_enabled).1 with
  | .ok r => some r
  | .error _ => none

/-- Embeds the hint chain of _make_request's HTTPError handler (lines
472-481 of client.py): the log line chosen for each status code class. -/
def httpErrorHint (status : Nat) : String :=
  if status == 401 then "Authentication required. Did you call login()?"
  else if status == 403 then "Permission denied. Check user role/permissions."
  else if status == 404 then "Endpoint not found. Check the API path."
  else if status == 422 then "Validation error. Check request data format."
  else if 500 ≤ status ∧ status < 600 then "Server error. Check API logs for details."
  else ""

/-! ## Response cache (src/utils/caching.py)

`CacheManager._cache` is a Python dict from string keys to entries
holding the value, an absolute expiry instant, and the creation instant.
The dict is embedded as an association list without duplicate keys:
`assocSet` overwrites in place when the key is present, as a dict does,
and appends otherwise. -/

structure CacheEntry (α : Type) where
  value : α
  expires_at : Nat
  created_at : Nat
  deriving DecidableEq, Repr

abbrev CacheStore (α : Type) : Type := List (String × CacheEntry α)

def assocFind {α : Type} (key : String) : CacheStore α → Option (CacheEntry α)
  | [] => none
  | (k, e) :: rest => if k == key then some e else assocFind key rest

def assocErase {α : Type} (key : String) : CacheStore α → CacheStore α
  | [] => []
  | (k, e) :: rest => if k == key then rest else (k, e) :: assocErase key rest

def assocSet {α : Type} (key : String) (entry : CacheEntry α) :
    CacheStore α → CacheStore α
  | [] => [(key, entry)]
  | (k, e) :: rest =>
      if k == key then (key, entry) :: rest else (k, e) :: assocSet key entry rest

/-- Embeds CacheManager.get: a missing key is a miss; a present entry
whose expiry instant lies strictly in the past is deleted and reported
exactly like a miss; otherwise the stored value is returned and the
store is untouched. -/
def CacheManager.get {α : Type} (now : Nat) (key : String) (c : CacheStore α) :
    Option α × CacheStore α :=
  match assocFind key c with
  | none => (none, c)
  | some entry =>
      if entry.expires_at < now then (none, assocErase key c)
      else (some entry.value, c)

/-- Embeds CacheManager.set: stores the value under the key with expiry
now + ttl, unconditionally — nothing is ever evicted to make room. -/
def CacheManager.set {α : Type} (now : Nat) (key : String) (value : α)
    (ttl : Nat) (c : CacheStore α) : CacheStore α :=
  assocSet key ⟨value, now + ttl, now⟩ c

/-- Embeds CacheManager.invalidate: removes the one entry if present. -/
def CacheManager.invalidate {α : Type} (key : String) (c : CacheStore α) :
    CacheStore α :=
  if (assocFind key c).isSome then assocErase key c else c

/-- Embeds CacheManager.invalidate_all: clears the store. -/
def CacheManager.invalidate_all {α : Type} (_c : CacheStore α) : CacheStore α :=
  []

/-- The operations a caller can perform against a CacheManager, for
stating invariants over arbitrary operation sequences. -/
inductive CacheOp (α : Type) where
  | get (key : String)
  | set (key : String) (value : α) (ttl : Nat)
  | invalidate (key : String)
  | invalidateAll
  deriving Repr

def applyCacheOp {α : Type} (now : Nat) (c : CacheStore α) :
    CacheOp α → CacheStore α
  | .get key => (CacheManager.get now key c).2
  | .set key value ttl => CacheManager.set now key value ttl c
  | .invalidate key => CacheManager.invalidate key c
  | .invalidateAll => CacheManager.invalidate_all c

def applyCacheOps {α : Type} (now : Nat) (ops : List (CacheOp α))
    (c : CacheStore α) : CacheStore α :=
  ops.foldl (applyCacheOp now) c

/-- Pairwise distinct cache keys generated from naturals, used to
exhibit unbounded growth of the store. -/
def natKey (n : Nat) : String := String.mk (List.replicate n 'a')

/-! ## Session-state cache wrapper (caching.cache_in_session)

The wrapper around a fetch function: session entries hold the value and
the write timestamp; with a TTL, an entry older than the TTL is deleted
and refetched, otherwise the stored value is returned without invoking
the fetch.  The embedding returns the value, the updated session store
and how many times the fetch function was invoked. -/

structure SessionEntry (α : Type) where
  value : α
  timestamp : Nat
  deriving DecidableEq, Repr

abbrev SessionStore (α : Type) : Type := List (String × SessionEntry α)

def sessFind {α : Type} (key : String) : SessionStore α → Option (SessionEntry α)
  | [] => none
  | (k, e) :: rest => if k == key then some e else sessFind key rest

def sessErase {α : Type} (key : String) : SessionStore α → SessionStore α
  | [] => []
  | (k, e) :: rest => if k == key then rest else (k, e) :: sessErase key rest

def sessSet {α : Type} (key : String) (entry : SessionEntry α) :
    SessionStore α → SessionStore α
  | [] => [(key, entry)]
  | (k, e) :: rest =>
      if k == key then (key, entry) :: rest else (k, e) :: sessSet key entry rest

/-- Embeds the cache_in_session wrapper body: on a hit within the TTL the
stored value is returned and the fetch is not invoked; on a miss, or when
`now - timestamp > ttl`, the stale entry is deleted, the fetch runs once
and its result is stored with the current timestamp. -/
def cache_in_session {α : Type} (ttl : Option Nat) (key : String)
    (fetch : Nat → α) (now : Nat) (sess : SessionStore α) :
    α × SessionStore α × Nat :=
  match sessFind key sess with
  | some entry =>
      match ttl with
      | some t =>
          if t < now - entry.timestamp then
            let value := fetch now
            (value, sessSet key ⟨value, now⟩ (sessErase key sess), 1)
          else
            (entry.value, sess, 0)
      | none => (entry.value, sess, 0)
  | none =>
      let value := fetch now
      (value, sessSet key ⟨value, now⟩ sess, 1)

/-! ## Synchronization protocol: the import endpoint

The /sync/import-inventory handler itself is not part of the client
sources; only its callers (src/ui/components/sync_components.py) and its
tests (tests/integration/test_multi_node_workflows.py) are.  Its record
processing is therefore modelled from the spec, sections 4.5 and 6. -/

structure InventoryRecord where
  name : String
  category : String
  quantity : Nat
  unit : String
  value : Nat
  description : String
  deriving DecidableEq, Repr

/-- The identity key used for merge matching: name + category (spec
section 3, InventoryRecord). -/
def sameIdentity (a b : InventoryRecord) : Bool :=
  a.name == b.name && a.category == b.category

inductive MergeStrategy where
  | add
  | merge
  | replace
  deriving DecidableEq, Repr

structure MergeStatistics where
  items_added : Nat
  items_updated : Nat
  items_skipped : Nat
  deriving DecidableEq, Repr

/-- Modelled from the spec: the wire envelope of section 6.  The
`inventory` field is optional so that a structurally invalid payload —
the envelope with the required "inventory" list missing — is
representable; the handler itself is absent from src/. -/
structure SyncPayload where
  source_fort : String
  export_timestamp : String
  sync_format_version : String
  inventory : Option (List InventoryRecord)
  deriving DecidableEq, Repr

def hasIdentityMatch (target : List InventoryRecord)
    (r : InventoryRecord) : Bool :=
  target.any (sameIdentity r)

/-- Modelled from the spec: one record of the import loop of section 4.5.
Add creates the record only when no identity match exists and otherwise
skips; Replace overwrites the matching record with the source's full
field set, or creates it; Merge sums quantities into the matching record
keeping the target's other fields (the only reconciliation rule the spec
guarantees, section 9), or creates the record.  Returns the new target
list and the updated statistics. -/
def applyRecord (strategy : MergeStrategy)
    (target : List InventoryRecord) (stats : MergeStatistics)
    (r : InventoryRecord) : List InventoryRecord × MergeStatistics :=
  match strategy with
  | .add =>
      if hasIdentityMatch target r then
        (target, { stats with items_skipped := stats.items_skipped + 1 })
      else
        (target ++ [r], { stats with items_added := stats.items_added + 1 })
  | .replace =>
      if hasIdentityMatch target r then
        (target.map (fun t => if sameIdentity r t then r else t),
         { stats with items_updated := stats.items_updated + 1 })
      else
        (target ++ [r], { stats with items_added := stats.items_added + 1 })
  | .merge =>
      if hasIdentityMatch target r then
        (target.map (fun t =>
           if sameIdentity r t then { t with quantity := t.quantity + r.quantity }
           else t),
         { stats with items_updated := stats.items_updated + 1 })
      else
        (target ++ [r], { stats with items_added := stats.items_added + 1 })

def importRecords (strategy : MergeStrategy) (target : List InventoryRecord)
    (stats : MergeStatistics) :
    List InventoryRecord → List InventoryRecord × MergeStatistics
  | [] => (target, stats)
  | r :: rest =>
      let (target', stats') := applyRecord strategy target stats r
      importRecords strategy target' stats' rest

/-- The error the import endpoint reports: an HTTP status together with
the detail string, matching the 400 "Invalid sync data" the integration
test observes for a malformed payload. -/
structure ImportError where
  status : Nat
  detail : String
  deriving DecidableEq, Repr

/-- Modelled from the spec: the /sync/import-inventory handler of
sections 4.5 and 6.  Structural validation runs first: a payload whose
required "inventory" field is missing is rejected with the Fatal 400
ProtocolFault before any record is processed; otherwise every record is
folded through the chosen merge strategy and the statistics are
returned. -/
def import_inventory (payload : SyncPayload) (strategy : MergeStrategy)
    (target : List InventoryRecord) :
    Except ImportError (List InventoryRecord × MergeStatistics) :=
  match payload.inventory with
  | none => .error ⟨400, "Invalid sync data: missing inventory field"⟩
  | some records => .ok (importRecords strategy target ⟨0, 0, 0⟩ records)

/-- The target node's record store after an import call: an import that
fails validation leaves the store as it was. -/
def importApply (payload : SyncPayload) (strategy : MergeStrategy)
    (target : List InventoryRecord) : List InventoryRecord :=
  match import_inventory payload strategy target with
  | .ok (target', _) => target'
  | .error _ => target

/-! ## Token verification (raspberry_pi/api/auth_middleware.py)

The module-level SECRET_KEY and USERS_DB are shared by every fort app
that imports the middleware; a JWT is embedded as the claims the code
reads plus the key it was signed with and whether its exp claim has
passed, the two facts jose's decode checks. -/

/-- The module-level signing secret, one value per process, shared by
all fort apps (auth_middleware.py line 39). -/
def SECRET_KEY : String := "module-level-shared-secret"

structure UserEntry where
  username : String
  password : String
  role : String
  fort : String
  deriving DecidableEq, Repr

/-- Embeds USERS_DB of auth_middleware.py. -/
def USERS_DB : List (String × UserEntry) :=
  [("fort_commander",
    ⟨"fort_commander", "frontier_pass123", "admin", "all"⟩),
   ("fishing_chief",
    ⟨"fishing_chief", "fish_pass123", "manager", "fishing"⟩),
   ("trader",
    ⟨"trader", "trade_pass123", "user", "trading"⟩)]

def usersLookup (username : String) : List (String × UserEntry) → Option UserEntry
  | [] => none
  | (k, u) :: rest => if k == username then some u else usersLookup username rest

/-- Embeds authenticate_user: the username must exist in USERS_DB and
the password must match. -/
def authenticate_user (username password : String) : Option UserEntry :=
  match usersLookup username USERS_DB with
  | none => none
  | some u => if u.password == password then some u else none

/-- A JWT as the middleware observes it: the key that signed it, whether
its exp claim has passed, and the sub/role/fort claims the code reads. -/
structure JwtToken where
  signedWith : String
  expIsPast : Bool
  sub : Option String
  roleClaim : Option String
  fortClaim : Option String
  deriving DecidableEq, Repr

structure TokenData where
  username : Option String
  role : Option String
  fort : Option String
  deriving DecidableEq, Repr

structure AuthUser where
  username : String
  role : String
  fort : String
  deriving DecidableEq, Repr

/-- Embeds create_access_token as invoked from the /auth/login route: a
fresh token signed with the shared SECRET_KEY carrying the user's
sub/role/fort claims, its exp claim in the future. -/
def create_access_token (u : UserEntry) : JwtToken :=
  ⟨SECRET_KEY, false, some u.username, some u.role, some u.fort⟩

/-- Embeds verify_token: jwt.decode rejects the token (HTTP 401) when
the signature does not verify against SECRET_KEY or the exp claim has
passed; a decoded payload without a sub claim is also rejected;
otherwise the sub, role and fort claims are returned.  The fort claim is
read but never compared against anything. -/
def verify_token (t : JwtToken) : Except Nat TokenData :=
  if t.signedWith != SECRET_KEY then .error 401
  else if t.expIsPast then .error 401
  else
    match t.sub with
    | none => .error 401
    | some username => .ok ⟨some username, t.roleClaim, t.fortClaim⟩

/-- Embeds get_current_user: verify the token, then look its sub claim
up in the shared USERS_DB; an unknown user is rejected with 401, and the
returned identity — username, role, fort — comes from the USERS_DB
entry, not from the token's claims. -/
def get_current_user (t : JwtToken) : Except Nat AuthUser :=
  match verify_token t with
  | .error code => .error code
  | .ok td =>
      match td.username with
      | none => .error 401
      | some username =>
          match usersLookup username USERS_DB with
          | none => .error 401
          | some u => .ok ⟨u.username, u.role, u.fort⟩

/-! ## Helper lemmas: the retry loop -/

theorem retryAux_fatal {α : Type} (transport : Nat → Except ReqError α)
    (maxAttempts attempt : Nat) (e : ReqError)
    (herr : transport attempt = .error e)
    (hfatal : is_retryable_error e = false) :
    retryAux transport maxAttempts attempt = (.error e, attempt + 1) := by
  rw [retryAux, herr]
  simp [hfatal]

theorem retryAux_all_retryable {α : Type} (transport : Nat → Except ReqError α)
    (err : Nat → ReqError)
    (hall : ∀ i, transport i = .error (err i))
    (hretry : ∀ i, is_retryable_error (err i) = true) :
    ∀ (k attempt : Nat),
      retryAux transport (attempt + k + 1) attempt =
        (.error (err (attempt + k)), attempt + k + 1) := by
  intro k
  induction k with
  | zero =>
      intro attempt
      rw [retryAux, hall attempt]
      simp
  | succ k ih =>
      intro attempt
      rw [retryAux, hall attempt]
      have hlt : attempt + 1 < attempt + (k + 1) + 1 := by omega
      simp only [hlt, hretry attempt, and_self, dite_true]
      have := ih (attempt + 1)
      have harith : attempt + 1 + k = attempt + (k + 1) := by omega
      rw [harith] at this
      exact this

/-- C1: with retries enabled the executor runs maxAttempts =
max_retries + 1 = N attempts; a first failure classified Fatal stops it
after exactly one transport invocation whatever N is, while failures
classified Retryable at every attempt make it invoke the transport
exactly N times and propagate the last attempt's error. -/
theorem executor_attempt_counts {α : Type} (transport : Nat → Except ReqError α)
    (max_retries : Nat) :
    (∀ e, transport 0 = .error e → is_retryable_error e = false →
        make_request_with_retry transport max_retries true = (.error e, 1)) ∧
    (∀ err : Nat → ReqError,
        (∀ i, transport i = .error (err i)) →
        (∀ i, is_retryable_error (err i) = true) →
        make_request_with_retry transport max_retries true =
          (.error (err max_retries), max_retries + 1)) := by
  constructor
  · intro e herr hfatal
    unfold make_request_with_retry
    simp only [if_pos rfl]
    exact retryAux_fatal transport (max_retries + 1) 0 e herr hfatal
  · intro err hall hretry
    unfold make_request_with_retry
    simp only [if_pos rfl]
    have := retryAux_all_retryable transport err hall hretry max_retries 0
    simpa using this

theorem executor_attempt_counts_witness :
    make_request_with_retry
        (fun _ => (.error (.httpError (some 404)) : Except ReqError Nat)) 3 true =
      (.error (.httpError (some 404)), 1) ∧
    make_request_with_retry
        (fun _ => (.error .timeout : Except ReqError Nat)) 3 true =
      (.error .timeout, 4) :=
  ⟨(executor_attempt_counts (fun _ => .error (.httpError (some 404))) 3).1
      (.httpError (some 404)) rfl rfl,
   (executor_attempt_counts (fun _ => .error .timeout) 3).2
      (fun _ => .timeout) (fun _ => rfl) (fun _ => rfl)⟩

/-- C2: the error classification returns Retryable exactly for
connection errors, timeouts, and HTTP errors whose response status is
500, 502, 503 or 504; every other error — every other status code, a
response-less HTTP error, and any other exception — is Fatal. -/
theorem retryable_classification_exact :
    ∀ e : ReqError, is_retryable_error e = true ↔
      (e = .connectionError ∨ e = .timeout ∨
       e = .httpError (some 500) ∨ e = .httpError (some 502) ∨
       e = .httpError (some 503) ∨ e = .httpError (some 504)) := by
  intro e
  cases e with
  | connectionError => simp [is_retryable_error]
  | timeout => simp [is_retryable_error]
  | otherError => simp [is_retryable_error]
  | httpError status =>
      cases status with
      | none => simp [is_retryable_error]
      | some code =>
          simp only [is_retryable_error, Bool.or_eq_true, beq_iff_eq,
            ReqError.httpError.injEq, Option.some.injEq]
          tauto

/-- C3: a login call answered with status 200 stores the returned token
with expiry now + expires_in and returns true; a login call that fails
in any way — non-200 status or exception — returns false, leaves the
held token and its recorded expiry exactly as they were, and restores
the prior authentication state whenever the session header agreed with
the held token. -/
theorem login_success_stores_failure_rolls_back (now : Nat) (s : ClientState) :
    (∀ tok expiresIn,
        login now (.response 200 (some tok) (some expiresIn)) s =
          (true, { token := some tok,
                   token_expires_at := some (now + expiresIn),
                   authHeader := some ("Bearer " ++ tok) })) ∧
    (∀ outcome, loginCallFailed outcome = true →
        (login now outcome s).1 = false ∧
        (login now outcome s).2.token = s.token ∧
        (login now outcome s).2.token_expires_at = s.token_expires_at ∧
        (headerConsistent s → (login now outcome s).2 = s)) := by
  obtain ⟨tk, exp, hd⟩ := s
  constructor
  · intro tok expiresIn
    simp [login, set_auth_header]
  · intro outcome hfail
    cases outcome with
    | exception =>
        cases tk with
        | none =>
            simp [login, set_auth_header, headerConsistent]
            intro h
            simp [h]
        | some t =>
            simp [login, set_auth_header, headerConsistent]
            intro h
            simp [h]
    | response status a e =>
        have hs : (status == 200) = false := by
          simpa [loginCallFailed, bne_iff_ne, beq_eq_false_iff_ne] using hfail
        cases tk with
        | none =>
            simp [login, set_auth_header, hs, headerConsistent]
            intro h
            simp [h]
        | some t =>
            simp [login, set_auth_header, hs, headerConsistent]
            intro h
            simp [h]

theorem login_success_stores_failure_rolls_back_witness :
    login 7 (.response 200 (some "tok") (some 60)) ⟨none, none, none⟩ =
      (true, ⟨some "tok", some 67, some ("Bearer " ++ "tok")⟩) ∧
    ((login 7 (.response 401 none none) ⟨some "old", some 99, some ("Bearer " ++ "old")⟩).1 = false ∧
     (login 7 (.response 401 none none) ⟨some "old", some 99, some ("Bearer " ++ "old")⟩).2.token = some "old" ∧
     (login 7 (.response 401 none none) ⟨some "old", some 99, some ("Bearer " ++ "old")⟩).2.token_expires_at = some 99 ∧
     (headerConsistent ⟨some "old", some 99, some ("Bearer " ++ "old")⟩ →
       (login 7 (.response 401 none none) ⟨some "old", some 99, some ("Bearer " ++ "old")⟩).2 =
         ⟨some "old", some 99, some ("Bearer " ++ "old")⟩)) :=
  ⟨(login_success_stores_failure_rolls_back 7 ⟨none, none, none⟩).1 "tok" 60,
   (login_success_stores_failure_rolls_back 7
      ⟨some "old", some 99, some ("Bearer " ++ "old")⟩).2 (.response 401 none none) rfl⟩

/-- C4 counterexample: a state reached by a successful login whose token
expiry (instant 5) has passed at instant 10 still reports
is_authenticated and still holds the bearer header carrying that token —
the expired token is attached to outgoing requests, against the claim. -/
theorem expired_token_attached_cex :
    token_expired ((login 0 (.response 200 (some "tok") (some 5)) ⟨none, none, none⟩).2) 10 = true ∧
    is_authenticated ((login 0 (.response 200 (some "tok") (some 5)) ⟨none, none, none⟩).2) = true ∧
    ((login 0 (.response 200 (some "tok") (some 5)) ⟨none, none, none⟩).2).authHeader =
      some ("Bearer " ++ "tok") := by
  refine ⟨rfl, rfl, rfl⟩

/-- C4 amended: the client never consults the recorded expiry when
attaching credentials — whenever a token is present, even one whose
expiry has passed, is_authenticated reports true and _set_auth_header
installs the bearer header built from that token. -/
theorem expiry_never_consulted (s : ClientState) (now : Nat) (t : String)
    (htok : s.token = some t) (hexp : token_expired s now = true) :
    is_authenticated s = true ∧
    (set_auth_header s).authHeader = some ("Bearer " ++ t) := by
  refine ⟨?_, ?_⟩
  · simp [is_authenticated, htok]
  · simp [set_auth_header, htok]

theorem expiry_never_consulted_witness :
    is_authenticated ⟨some "tok", some 5, some ("Bearer " ++ "tok")⟩ = true ∧
    (set_auth_header ⟨some "tok", some 5, some ("Bearer " ++ "tok")⟩).authHeader =
      some ("Bearer " ++ "tok") :=
  expiry_never_consulted ⟨some "tok", some 5, some ("Bearer " ++ "tok")⟩ 10 "tok" rfl rfl

/-! ## Helper lemmas: the import loop -/

theorem applyRecord_one_counter (strategy : MergeStrategy)
    (target : List InventoryRecord) (stats : MergeStatistics)
    (r : InventoryRecord) :
    (applyRecord strategy target stats r).2 =
        { stats with items_added := stats.items_added + 1 } ∨
    (applyRecord strategy target stats r).2 =
        { stats with items_updated := stats.items_updated + 1 } ∨
    (applyRecord strategy target stats r).2 =
        { stats with items_skipped := stats.items_skipped + 1 } := by
  cases strategy <;> simp only [applyRecord] <;> split <;> simp

theorem importRecords_total (strategy : MergeStrategy) :
    ∀ (records : List InventoryRecord) (target : List InventoryRecord)
      (stats : MergeStatistics),
      (importRecords strategy target stats records).2.items_added +
        (importRecords strategy target stats records).2.items_updated +
        (importRecords strategy target stats records).2.items_skipped =
      stats.items_added + stats.items_updated + stats.items_skipped +
        records.length := by
  intro records
  induction records with
  | nil => intro target stats; simp [importRecords]
  | cons r rest ih =>
      intro target stats
      simp only [importRecords]
      rcases applyRecord_one_counter strategy target stats r with h | h | h <;>
        · rw [show (applyRecord strategy target stats r) =
              ((applyRecord strategy target stats r).1,
               (applyRecord strategy target stats r).2) from rfl]
          rw [h, ih]
          simp
          omega

/-- C5: for a structurally valid payload and any of the three merge
strategies, every record moves exactly one of the added/updated/skipped
counters up by one, and the returned statistics always satisfy
items_added + items_updated + items_skipped = number of payload
records. -/
theorem import_statistics_partition (strategy : MergeStrategy)
    (payload : SyncPayload) (records target : List InventoryRecord)
    (h : payload.inventory = some records) :
    ∃ target' stats,
      import_inventory payload strategy target = .ok (target', stats) ∧
      stats.items_added + stats.items_updated + stats.items_skipped =
        records.length := by
  refine ⟨(importRecords strategy target ⟨0, 0, 0⟩ records).1,
          (importRecords strategy target ⟨0, 0, 0⟩ records).2, ?_, ?_⟩
  · simp [import_inventory, h]
  · simpa using importRecords_total strategy records target ⟨0, 0, 0⟩

theorem import_statistics_partition_witness :
    ∃ target' stats,
      import_inventory
          ⟨"fishing", "t0", "1.0",
           some [⟨"Net", "equipment", 5, "unit", 1, ""⟩,
                 ⟨"Hook", "equipment", 100, "unit", 1, ""⟩]⟩
          .merge [⟨"Net", "equipment", 10, "unit", 1, ""⟩] =
        .ok (target', stats) ∧
      stats.items_added + stats.items_updated + stats.items_skipped = 2 :=
  import_statistics_partition .merge
    ⟨"fishing", "t0", "1.0",
     some [⟨"Net", "equipment", 5, "unit", 1, ""⟩,
           ⟨"Hook", "equipment", 100, "unit", 1, ""⟩]⟩
    [⟨"Net", "equipment", 5, "unit", 1, ""⟩,
     ⟨"Hook", "equipment", 100, "unit", 1, ""⟩]
    [⟨"Net", "equipment", 10, "unit", 1, ""⟩] rfl

/-- C6: an import whose payload is missing the required inventory list
fails fast with the 400 ProtocolFault — an error the Backoff Policy
classifies Fatal — and the target's record store is left exactly as it
was: no record is processed and no statistic is produced. -/
theorem malformed_payload_fails_fast (payload : SyncPayload)
    (strategy : MergeStrategy) (target : List InventoryRecord)
    (h : payload.inventory = none) :
    import_inventory payload strategy target =
      .error ⟨400, "Invalid sync data: missing inventory field"⟩ ∧
    importApply payload strategy target = target ∧
    is_retryable_error (.httpError (some 400)) = false := by
  refine ⟨?_, ?_, rfl⟩
  · simp [import_inventory, h]
  · simp [importApply, import_inventory, h]

theorem malformed_payload_fails_fast_witness :
    import_inventory ⟨"bad_fort", "t0", "1.0", none⟩ .merge
        [⟨"Net", "equipment", 10, "unit", 1, ""⟩] =
      .error ⟨400, "Invalid sync data: missing inventory field"⟩ ∧
    importApply ⟨"bad_fort", "t0", "1.0", none⟩ .merge
        [⟨"Net", "equipment", 10, "unit", 1, ""⟩] =
      [⟨"Net", "equipment", 10, "unit", 1, ""⟩] ∧
    is_retryable_error (.httpError (some 400)) = false :=
  malformed_payload_fails_fast ⟨"bad_fort", "t0", "1.0", none⟩ .merge
    [⟨"Net", "equipment", 10, "unit", 1, ""⟩] rfl

/-! ## Helper lemmas: the caches -/

theorem sessFind_sessSet_self {α : Type} (key : String) (e : SessionEntry α) :
    ∀ sess : SessionStore α, sessFind key (sessSet key e sess) = some e := by
  intro sess
  induction sess with
  | nil => simp [sessSet, sessFind]
  | cons p rest ih =>
      obtain ⟨k, v⟩ := p
      by_cases h : k == key
      · simp [sessSet, sessFind, h]
      · simp only [sessSet, sessFind, h, if_neg, Bool.false_eq_true, if_false]
        simpa [sessFind, h] using ih

/-- C7: reads through the session cache wrapper with a TTL: a first read
of an absent key invokes the fetch once and stores its result with the
read's timestamp; a second read within the TTL serves the stored value
and does not invoke the fetch; a read after the TTL has elapsed behaves
as a miss — the stale entry is dropped, the fetch runs again and its
fresh result is stored under the new timestamp.  Likewise
CacheManager.get of an entry whose expiry has passed returns the miss
value and evicts the entry. -/
theorem cache_expiry_read_semantics {α : Type} (key : String) (ttl : Nat)
    (fetch : Nat → α) (t1 t2 t3 now : Nat) (sess : SessionStore α)
    (c : CacheStore α) (entry : CacheEntry α)
    (hmiss : sessFind key sess = none)
    (hwithin : t2 - t1 ≤ ttl)
    (hexpired : ttl < t3 - t1)
    (hc : assocFind key c = some entry)
    (hpast : entry.expires_at < now) :
    cache_in_session (some ttl) key fetch t1 sess =
      (fetch t1, sessSet key ⟨fetch t1, t1⟩ sess, 1) ∧
    cache_in_session (some ttl) key fetch t2
        (sessSet key ⟨fetch t1, t1⟩ sess) =
      (fetch t1, sessSet key ⟨fetch t1, t1⟩ sess, 0) ∧
    cache_in_session (some ttl) key fetch t3
        (sessSet key ⟨fetch t1, t1⟩ sess) =
      (fetch t3,
       sessSet key ⟨fetch t3, t3⟩ (sessErase key (sessSet key ⟨fetch t1, t1⟩ sess)),
       1) ∧
    sessFind key
        (sessSet key ⟨fetch t3, t3⟩ (sessErase key (sessSet key ⟨fetch t1, t1⟩ sess))) =
      some ⟨fetch t3, t3⟩ ∧
    CacheManager.get now key c = (none, assocErase key c) := by
  have hfind1 : sessFind key (sessSet key ⟨fetch t1, t1⟩ sess) =
      some ⟨fetch t1, t1⟩ := sessFind_sessSet_self key ⟨fetch t1, t1⟩ sess
  refine ⟨?_, ?_, ?_, ?_, ?_⟩
  · simp [cache_in_session, hmiss]
  · simp [cache_in_session, hfind1, Nat.not_lt.mpr hwithin]
  · simp [cache_in_session, hfind1, hexpired]
  · exact sessFind_sessSet_self key ⟨fetch t3, t3⟩ _
  · simp [CacheManager.get, hc, hpast]

theorem cache_expiry_read_semantics_witness :
    cache_in_session (some 10) "k" (fun now => now) 0 ([] : SessionStore Nat) =
      (0, sessSet "k" ⟨0, 0⟩ [], 1) ∧
    cache_in_session (some 10) "k" (fun now => now) 10 (sessSet "k" ⟨0, 0⟩ []) =
      (0, sessSet "k" ⟨0, 0⟩ [], 0) ∧
    cache_in_session (some 10) "k" (fun now => now) 11 (sessSet "k" ⟨0, 0⟩ []) =
      (11, sessSet "k" ⟨11, 11⟩ (sessErase "k" (sessSet "k" ⟨0, 0⟩ [])), 1) ∧
    sessFind "k" (sessSet "k" ⟨11, 11⟩ (sessErase "k" (sessSet "k" ⟨0, 0⟩ []))) =
      some ⟨11, 11⟩ ∧
    CacheManager.get 5 "k" [("k", (⟨0, 3, 0⟩ : CacheEntry Nat))] =
      (none, assocErase "k" [("k", ⟨0, 3, 0⟩)]) :=
  cache_expiry_read_semantics "k" 10 (fun now => now) 0 10 11 5 []
    [("k", ⟨0, 3, 0⟩)] ⟨0, 3, 0⟩ rfl (by decide) (by decide) rfl (by decide)

/-- C8 counterexample: an auth fault (401) and a not-found fault (404)
both make the public call surface return None — the two calls produce
the very same value, so no category annotation reaches the caller and
the error itself is not surfaced. -/
theorem fatal_error_swallowed_cex :
    make_request (fun _ => (.error (.httpError (some 401)) : Except ReqError Nat))
        3 true = none ∧
    make_request (fun _ => (.error (.httpError (some 404)) : Except ReqError Nat))
        3 true = none ∧
    make_request (fun _ => (.error (.httpError (some 401)) : Except ReqError Nat))
        3 true =
      make_request (fun _ => (.error (.httpError (some 404)) : Except ReqError Nat))
        3 true := by
  have h1 := retryAux_fatal
    (fun _ => (.error (.httpError (some 401)) : Except ReqError Nat)) 4 0
    (.httpError (some 401)) rfl rfl
  have h2 := retryAux_fatal
    (fun _ => (.error (.httpError (some 404)) : Except ReqError Nat)) 4 0
    (.httpError (some 404)) rfl rfl
  refine ⟨?_, ?_, ?_⟩ <;> simp [make_request, make_request_with_retry, h1, h2]

/-- C8 amended: a Fatal first error aborts the retry loop after a
single transport invocation and propagates out of the retry layer, and
_make_request logs a hint that does distinguish the auth, permission,
not-found, validation and server categories — but what the caller of the
public call surface receives is None, with no category annotation. -/
theorem fatal_error_not_retried_logged_swallowed {α : Type}
    (transport : Nat → Except ReqError α) (max_retries : Nat) (e : ReqError)
    (h0 : transport 0 = .error e) (hfatal : is_retryable_error e = false) :
    make_request_with_retry transport max_retries true = (.error e, 1) ∧
    make_request transport max_retries true = none ∧
    (httpErrorHint 401 ≠ httpErrorHint 403 ∧ httpErrorHint 403 ≠ httpErrorHint 404 ∧
     httpErrorHint 404 ≠ httpErrorHint 422 ∧ httpErrorHint 422 ≠ httpErrorHint 500) := by
  have hrun : make_request_with_retry transport max_retries true = (.error e, 1) := by
    unfold make_request_with_retry
    simp only [if_pos rfl]
    exact retryAux_fatal transport (max_retries + 1) 0 e h0 hfatal
  refine ⟨hrun, ?_, by decide, by decide, by decide, by decide⟩
  simp [make_request, hrun]

theorem fatal_error_not_retried_logged_swallowed_witness :
    make_request_with_retry
        (fun _ => (.error (.httpError (some 422)) : Except ReqError Nat)) 5 true =
      (.error (.httpError (some 422)), 1) ∧
    make_request (fun _ => (.error (.httpError (some 422)) : Except ReqError Nat))
        5 true = none ∧
    (httpErrorHint 401 ≠ httpErrorHint 403 ∧ httpErrorHint 403 ≠ httpErrorHint 404 ∧
     httpErrorHint 404 ≠ httpErrorHint 422 ∧ httpErrorHint 422 ≠ httpErrorHint 500) :=
  fatal_error_not_retried_logged_swallowed
    (fun _ => (.error (.httpError (some 422)) : Except ReqError Nat)) 5
    (.httpError (some 422)) rfl rfl

theorem assocFind_assocSet {α : Type} (k k' : String) (e : CacheEntry α) :
    ∀ c : CacheStore α, assocFind k' (assocSet k e c) =
      if k == k' then some e else assocFind k' c := by
  intro c
  induction c with
  | nil => simp [assocSet, assocFind]
  | cons p rest ih =>
      obtain ⟨k0, v⟩ := p
      by_cases h : k0 == k
      · have hk : k0 = k := by simpa using h
        subst hk
        by_cases h' : k0 == k'
        · simp [assocSet, assocFind, h']
        · simp [assocSet, assocFind, h']
      · by_cases h' : k0 == k'
        · have hk' : k0 = k' := by simpa using h'
          subst hk'
          have : (k == k0) = false := by
            simp only [beq_eq_false_iff_ne]
            intro hkk
            subst hkk
            simp at h
          simp [assocSet, assocFind, h, this]
        · simp [assocSet, assocFind, h, h', ih]

theorem assocSet_length {α : Type} (k : String) (e : CacheEntry α) :
    ∀ c : CacheStore α, (assocSet k e c).length =
      if (assocFind k c).isSome then c.length else c.length + 1 := by
  intro c
  induction c with
  | nil => simp [assocSet, assocFind]
  | cons p rest ih =>
      obtain ⟨k0, v⟩ := p
      by_cases h : k0 == k
      · simp [assocSet, assocFind, h]
      · simp [assocSet, assocFind, h, ih]
        split <;> simp

theorem natKey_injective : Function.Injective natKey := by
  intro a b h
  have hlen := congrArg (fun s => s.data.length) h
  simpa [natKey] using hlen

theorem applyCacheOps_sets_length (now ttl : Nat) :
    ∀ (keys : List String) (c : CacheStore Nat),
      keys.Nodup → (∀ k ∈ keys, assocFind k c = none) →
      (applyCacheOps now (keys.map (fun k => CacheOp.set k 0 ttl)) c).length =
        c.length + keys.length := by
  intro keys
  induction keys with
  | nil => intro c _ _; simp [applyCacheOps]
  | cons k rest ih =>
      intro c hnd hfresh
      have hfk : assocFind k c = none := hfresh k (by simp)
      have hstep :
          (applyCacheOp now c (CacheOp.set k 0 ttl)).length = c.length + 1 := by
        simp [applyCacheOp, CacheManager.set, assocSet_length, hfk]
      have hfresh' : ∀ k' ∈ rest,
          assocFind k' (applyCacheOp now c (CacheOp.set k 0 ttl)) = none := by
        intro k' hk'
        have hne : k ≠ k' := by
          intro hkk
          subst hkk
          exact (List.nodup_cons.mp hnd).1 hk'
        simp [applyCacheOp, CacheManager.set, assocFind_assocSet,
          beq_eq_false_iff_ne.mpr hne, hfresh k' (by simp [hk'])]
      have := ih (applyCacheOp now c (CacheOp.set k 0 ttl))
        (List.nodup_cons.mp hnd).2 hfresh'
      simp only [List.map_cons, applyCacheOps, List.foldl_cons] at this ⊢
      rw [this, hstep]
      simp only [List.length_cons]
      omega

/-- C9 counterexample: the CacheManager enforces no maximum entry count
at all — for every candidate maximum there is a sequence of set
operations (writes to pairwise distinct keys, starting from the empty
store) after which the store holds more entries than that maximum, so
the claimed invariant is false. -/
theorem cache_no_maximum_cex :
    ¬ ∃ maxEntries : Nat, ∀ ops : List (CacheOp Nat),
        (applyCacheOps 0 ops ([] : CacheStore Nat)).length ≤ maxEntries := by
  rintro ⟨M, hM⟩
  have hnd : (((List.range (M + 1)).map natKey)).Nodup :=
    (List.nodup_range _).map natKey_injective
  have hlen := applyCacheOps_sets_length 0 1 ((List.range (M + 1)).map natKey)
    ([] : CacheStore Nat) hnd (by intro k _; rfl)
  have hbound := hM (((List.range (M + 1)).map natKey).map
    (fun k => CacheOp.set k 0 1))
  rw [hlen] at hbound
  simp at hbound

/-- C9 amended: CacheManager.set stores unconditionally and never
evicts anything — an operation never shrinks the store below its prior
size minus the written key, and writing n pairwise distinct keys into
the empty store leaves exactly n entries, so the entry count grows
without bound instead of respecting a configured maximum. -/
theorem cache_set_never_evicts :
    (∀ (now : Nat) (key : String) (v : Nat) (ttl : Nat) (c : CacheStore Nat),
        c.length ≤ (CacheManager.set now key v ttl c).length) ∧
    (∀ n : Nat,
        (applyCacheOps 0
            (((List.range n).map natKey).map (fun k => CacheOp.set k 0 1))
            ([] : CacheStore Nat)).length = n) := by
  constructor
  · intro now key v ttl c
    rw [CacheManager.set, assocSet_length]
    split <;> omega
  · intro n
    have hnd : (((List.range n).map natKey)).Nodup :=
      (List.nodup_range _).map natKey_injective
    have := applyCacheOps_sets_length 0 1 ((List.range n).map natKey)
      ([] : CacheStore Nat) hnd (by intro k _; rfl)
    simpa using this

theorem usersLookup_entry (username : String) (u : UserEntry)
    (h : usersLookup username USERS_DB = some u) :
    usersLookup u.username USERS_DB = some u := by
  simp only [usersLookup, USERS_DB] at h
  split at h
  · injection h with h2
    subst h2
    rfl
  · split at h
    · injection h with h2
      subst h2
      rfl
    · split at h
      · injection h with h2
        subst h2
        rfl
      · exact absurd h (by simp)

/-- C10: token verification is fort-independent — two JWTs signed for
the shared module-level SECRET_KEY that differ only in their fort claim
receive the same get_current_user verdict (both the same accepted
identity or both rejected), and every token the /auth/login flow issues
for an authenticated user is accepted by get_current_user with that
user's USERS_DB identity, whichever fort app serves the request, since
all fort apps share SECRET_KEY and USERS_DB and the fort claim is never
checked. -/
theorem token_verification_fort_independent :
    (∀ (key : String) (expPast : Bool) (sub roleClaim f1 f2 : Option String),
        get_current_user ⟨key, expPast, sub, roleClaim, f1⟩ =
        get_current_user ⟨key, expPast, sub, roleClaim, f2⟩) ∧
    (∀ (username password : String) (u : UserEntry),
        authenticate_user username password = some u →
        get_current_user (create_access_token u) =
          .ok ⟨u.username, u.role, u.fort⟩) := by
  constructor
  · intro key expPast sub roleClaim f1 f2
    by_cases hkey : key != SECRET_KEY
    · simp [get_current_user, verify_token, hkey]
    · cases expPast
      · cases sub <;> simp [get_current_user, verify_token, hkey]
      · simp [get_current_user, verify_token, hkey]
  · intro username password u hauth
    rw [authenticate_user] at hauth
    rcases hu : usersLookup username USERS_DB with _ | u0 <;> rw [hu] at hauth
    · simp at hauth
    · by_cases hp : u0.password == password
      · simp only [hp, if_true] at hauth
        injection hauth with h2
        subst h2
        have hself := usersLookup_entry username u0 hu
        simp [get_current_user, create_access_token, verify_token,
          bne_self_eq_false, hself]
      · simp [hp] at hauth

theorem token_verification_fort_independent_witness :
    get_current_user ⟨SECRET_KEY, false, some "trader", some "user", some "fishing"⟩ =
      get_current_user ⟨SECRET_KEY, false, some "trader", some "user", some "trading"⟩ ∧
    get_current_user (create_access_token ⟨"trader", "trade_pass123", "user", "trading"⟩) =
      .ok ⟨"trader", "user", "trading"⟩ :=
  ⟨token_verification_fort_independent.1 SECRET_KEY false (some "trader")
      (some "user") (some "fishing") (some "trading"),
   token_verification_fort_independent.2 "trader" "trade_pass123"
      ⟨"trader", "trade_pass123", "user", "trading"⟩ rfl⟩

end HudsonBay
